import Mathlib

/-!
Verification of `src/take_screenshot.py` against its specification.

The script is a linear sequence of awaited calls into the Playwright
browser-automation API, executed inside `async with async_playwright() as p:`.
We embed it shallowly: each awaited API call is an observable `Event`; an
`Env` records, for each awaited call, whether it succeeds (and what the page
contains: whether the markers appear and whether the login button is present);
`runBody` replays the script line by line, accumulating the trace of calls it
makes and stopping at the first failing call with the corresponding error,
exactly as an uncaught Python exception would. `run` appends the
context-manager exit of `async_playwright` (which executes on every exit
path, success or exception) as a final `stopPlaywright` event.
-/

namespace TakeScreenshot

/-- One observable call the script issues into the browser-automation API,
in direct correspondence with the awaited Playwright calls in the source.
`screenshot` carries the `full_page` flag actually in effect: the source calls
`page.screenshot(path=...)` without `full_page`, and Playwright defaults
`full_page` to `False` (viewport-only capture), so the script's capture event
is `screenshot path false`. `stopPlaywright` is the `async with
async_playwright()` context exit, which runs on every exit path. -/
inductive Event where
  | launch : Event
  | newPage : Event
  | goto : String → Event
  | waitForSelector : String → Nat → Event
  | querySelector : String → Event
  | fill : String → String → Event
  | click : Event
  | waitForTimeout : Nat → Event
  | screenshot : String → Bool → Event
  | closeBrowser : Event
  | stopPlaywright : Event
  deriving DecidableEq, Repr

/-- The environment of one run: for each awaited call of the script, whether
that call succeeds, and what the dashboard page contains (whether the two
markers appear within their waits, and whether the login button is present).
The blind `wait_for_timeout(2000)` has no flag: it cannot fail. -/
structure Env where
  launchOk : Bool
  newPageOk : Bool
  gotoOk : Bool
  dashboardMarkerAppears : Bool
  loginBtnPresent : Bool
  fillAdminIdOk : Bool
  fillPasswordOk : Bool
  clickOk : Bool
  totalRequestsAppears : Bool
  screenshotOk : Bool
  closeOk : Bool
  deriving DecidableEq

/-- `Env` is just an 11-fold product of booleans. -/
def envEquiv :
    (Bool × Bool × Bool × Bool × Bool × Bool × Bool × Bool × Bool × Bool × Bool) ≃ Env where
  toFun := fun x =>
    ⟨x.1, x.2.1, x.2.2.1, x.2.2.2.1, x.2.2.2.2.1, x.2.2.2.2.2.1, x.2.2.2.2.2.2.1,
      x.2.2.2.2.2.2.2.1, x.2.2.2.2.2.2.2.2.1, x.2.2.2.2.2.2.2.2.2.1, x.2.2.2.2.2.2.2.2.2.2⟩
  invFun := fun e =>
    (e.launchOk, e.newPageOk, e.gotoOk, e.dashboardMarkerAppears, e.loginBtnPresent,
      e.fillAdminIdOk, e.fillPasswordOk, e.clickOk, e.totalRequestsAppears,
      e.screenshotOk, e.closeOk)
  left_inv := fun _ => rfl
  right_inv := fun _ => rfl

instance : Fintype Env := Fintype.ofEquiv _ envEquiv

/-- The error raised by the first failing awaited call, tagged by which call
failed (timeouts and fill failures are tagged with their selector). -/
inductive RunError where
  | launchFailure : RunError
  | newPageFailure : RunError
  | navigationFailure : RunError
  | timeoutFailure : String → RunError
  | fillFailure : String → RunError
  | clickFailure : RunError
  | captureFailure : RunError
  | closeFailure : RunError
  deriving DecidableEq, Repr

/-- A single-quote character as a string, used inside selector literals. -/
def sq : String := String.singleton (Char.ofNat 39)

/-- The hard-coded target URL (line 8 of the source). -/
def targetUrl : String := "http://localhost:3001"

/-- The dashboard-loaded marker selector (line 10). -/
def dashboardMarkerSelector : String := "text=Admin Dashboard"

/-- The login-button probe selector (line 13). -/
def loginBtnSelector : String := "button:has-text(" ++ sq ++ "Access Dashboard" ++ sq ++ ")"

/-- The identifier-field selector (line 15). -/
def adminIdSelector : String := "input[placeholder=" ++ sq ++ "Admin ID" ++ sq ++ "]"

/-- The secret-field selector (line 16). -/
def passwordSelector : String := "input[placeholder=" ++ sq ++ "Password" ++ sq ++ "]"

/-- The fixed identifier value (line 15). -/
def adminIdValue : String := "admin1"

/-- The fixed secret value (line 16). -/
def passwordValue : String := "password123"

/-- The authentication-confirmed marker selector (line 18). -/
def totalRequestsSelector : String := "text=Total Requests"

/-- Timeout of both marker waits, in milliseconds (lines 10 and 18). -/
def markerTimeoutMs : Nat := 10000

/-- The blind delay before capture, in milliseconds (line 20). -/
def blindDelayMs : Nat := 2000

/-- The hard-coded output path of the screenshot (line 21); the Python string
literal denotes single backslashes, reproduced here verbatim. -/
def screenshotPath : String :=
  "C:\\Users\\Sazid\\.gemini\\antigravity\\brain\\41001d6e-5fca-4311-9d29-e0a7cb00349e\\manual_screenshot.png"

/-- The body of `run()` (source lines 5-22), replayed line by line inside the
`async with async_playwright()` block. Each awaited call appends its event to
the trace before its success flag is consulted, so an event in the trace means
"this call was invoked"; on the first failing call the body stops with the
corresponding error, as an uncaught exception would. `page.query_selector`
(line 13) is non-blocking and non-failing: it yields a present/absent result
and has no failure flag. Note that `await browser.close()` (line 22) is the
last statement of the block, not a `finally` clause: it executes only when
every preceding call succeeded. -/
def runBody (env : Env) : List Event × Option RunError :=
  let t1 := [Event.launch]
  if !env.launchOk then (t1, some RunError.launchFailure) else
  let t2 := t1 ++ [Event.newPage]
  if !env.newPageOk then (t2, some RunError.newPageFailure) else
  let t3 := t2 ++ [Event.goto targetUrl]
  if !env.gotoOk then (t3, some RunError.navigationFailure) else
  let t4 := t3 ++ [Event.waitForSelector dashboardMarkerSelector markerTimeoutMs]
  if !env.dashboardMarkerAppears then
    (t4, some (RunError.timeoutFailure dashboardMarkerSelector)) else
  let t5 := t4 ++ [Event.querySelector loginBtnSelector]
  let afterLogin : List Event × Option RunError :=
    if env.loginBtnPresent then
      let t6 := t5 ++ [Event.fill adminIdSelector adminIdValue]
      if !env.fillAdminIdOk then (t6, some (RunError.fillFailure adminIdSelector)) else
      let t7 := t6 ++ [Event.fill passwordSelector passwordValue]
      if !env.fillPasswordOk then (t7, some (RunError.fillFailure passwordSelector)) else
      let t8 := t7 ++ [Event.click]
      if !env.clickOk then (t8, some RunError.clickFailure) else
      let t9 := t8 ++ [Event.waitForSelector totalRequestsSelector markerTimeoutMs]
      if !env.totalRequestsAppears then
        (t9, some (RunError.timeoutFailure totalRequestsSelector)) else
      (t9, none)
    else
      (t5, none)
  match afterLogin with
  | (t, some e) => (t, some e)
  | (t, none) =>
    let t10 := t ++ [Event.waitForTimeout blindDelayMs]
    let t11 := t10 ++ [Event.screenshot screenshotPath false]
    if !env.screenshotOk then (t11, some RunError.captureFailure) else
    let t12 := t11 ++ [Event.closeBrowser]
    if !env.closeOk then (t12, some RunError.closeFailure) else
    (t12, none)

/-- The whole run: the body inside the `async with async_playwright()` scope,
whose context-manager exit (`stopPlaywright`) executes on every exit path,
whether the body returned normally or raised. -/
def run (env : Env) : List Event × Option RunError :=
  let r := runBody env
  (r.1 ++ [Event.stopPlaywright], r.2)

/-- The trace of API calls the run issues. -/
def trace (env : Env) : List Event := (run env).1

/-- The run's outcome: `none` on success, `some e` when it raised `e`. -/
def result (env : Env) : Option RunError := (run env).2

/-- The process exit status of `asyncio.run(run())` (line 24): an uncaught
exception terminates the process with a non-zero status. -/
def exitCode (env : Env) : Nat := if (result env).isSome then 1 else 0

/-- Whether an event is a screenshot-capture call. -/
def isScreenshot : Event → Bool
  | Event.screenshot _ _ => true
  | _ => false

/-- Whether an event is a form-fill call. -/
def isFill : Event → Bool
  | Event.fill _ _ => true
  | _ => false

/-- Whether the run reaches the explicit `browser.close()` call on line 22:
every awaited call before it succeeded (including the screenshot). -/
def reachesClose (env : Env) : Bool :=
  env.launchOk && env.newPageOk && env.gotoOk && env.dashboardMarkerAppears &&
    (!env.loginBtnPresent ||
      (env.fillAdminIdOk && env.fillPasswordOk && env.clickOk && env.totalRequestsAppears)) &&
    env.screenshotOk

/-- The awaited call whose failure raises a given error. -/
def failEvent : RunError → Event
  | RunError.launchFailure => Event.launch
  | RunError.newPageFailure => Event.newPage
  | RunError.navigationFailure => Event.goto targetUrl
  | RunError.timeoutFailure s => Event.waitForSelector s markerTimeoutMs
  | RunError.fillFailure s =>
      if s == adminIdSelector then Event.fill adminIdSelector adminIdValue
      else Event.fill passwordSelector passwordValue
  | RunError.clickFailure => Event.click
  | RunError.captureFailure => Event.screenshot screenshotPath false
  | RunError.closeFailure => Event.closeBrowser

/-- Modelled from the spec: the error taxonomy of section 7, which lists four
categories — LaunchFailure, NavigationFailure, TimeoutFailure (defined there
as "a required marker did not appear within its timeout window", i.e. only the
dashboard-loaded and authentication-confirmed marker waits) and
CaptureFailure. -/
def inSpecTaxonomy : RunError → Bool
  | RunError.launchFailure => true
  | RunError.navigationFailure => true
  | RunError.timeoutFailure s => s == dashboardMarkerSelector || s == totalRequestsSelector
  | RunError.captureFailure => true
  | _ => false

/-- On failure, the failing call is the last call the run makes before the
context-manager exit: the trace ends with that call followed by
`stopPlaywright` and nothing else. On success this holds vacuously. -/
def failureEndsRun (env : Env) : Bool :=
  match result env with
  | none => true
  | some e =>
      decide ((trace env).drop ((trace env).length - 2) = [failEvent e, Event.stopPlaywright])

/-- A run where everything works and the dashboard shows no login button. -/
def happyNoLogin : Env :=
  ⟨true, true, true, true, false, true, true, true, true, true, true⟩

/-- A run where everything works and the dashboard shows the login button. -/
def happyLogin : Env :=
  ⟨true, true, true, true, true, true, true, true, true, true, true⟩

/-- A run where the browser launches but navigation to the URL fails. -/
def navFailEnv : Env :=
  ⟨true, true, false, false, false, false, false, false, false, false, false⟩

/-- A run where the dashboard-loaded marker never appears within its wait. -/
def dashTimeoutEnv : Env :=
  ⟨true, true, true, false, false, false, false, false, false, false, false⟩

/-- A run with a login button where, after the click, the
authentication-confirmed marker never appears within its wait. -/
def loginTimeoutEnv : Env :=
  ⟨true, true, true, true, true, true, true, true, false, true, true⟩

/-- A run with a login button where the identifier-field fill fails (no input
with that placeholder becomes available). -/
def fillFailEnv : Env :=
  ⟨true, true, true, true, true, false, true, true, true, true, true⟩

/-- A run with a login button where the secret-field fill fails. -/
def fillPwFailEnv : Env :=
  ⟨true, true, true, true, true, true, false, true, true, true, true⟩

end TakeScreenshot

namespace TakeScreenshot

/-- Claim C1, counterexample: it is not true that every run that acquires the
BrowserSession (launch succeeds) invokes the close call exactly once — when
navigation fails after a successful launch, `browser.close()` is never
reached, because line 22 is the last statement of the `with` block rather
than a `finally` clause. -/
theorem claim1_counterexample :
    ¬ (∀ env : Env, env.launchOk = true →
        (trace env).count Event.closeBrowser = 1) :=
  fun hall => absurd (hall navFailEnv rfl) (by decide)

/-- Claim C1 as amended: in a run that acquires the BrowserSession, the
explicit close call is invoked exactly once when every subsequent step up to
and including the screenshot succeeds, and zero times when any of those steps
fails; on every exit path the session is released only implicitly, by the
`async_playwright` context exit, which runs exactly once. -/
theorem claim1_theorem :
    ∀ env : Env, env.launchOk = true →
      ((trace env).count Event.closeBrowser = if reachesClose env then 1 else 0) ∧
      (trace env).count Event.stopPlaywright = 1 := by
  rintro ⟨a, b, c, d, e, f, g, h, i, j, k⟩ ha
  cases ha
  cases b <;> cases c <;> cases d <;> cases e <;> cases f <;> cases g <;> cases h <;>
    cases i <;> cases j <;> cases k <;> decide

/-- Witness for the amended claim C1 at the all-successful login run. -/
theorem claim1_witness :
    ((trace happyLogin).count Event.closeBrowser = if reachesClose happyLogin then 1 else 0) ∧
    (trace happyLogin).count Event.stopPlaywright = 1 :=
  claim1_theorem happyLogin rfl

/-- Claim C2, counterexample: it is not true that a successful run captures a
full-page image — the source calls `page.screenshot` without `full_page=True`,
and the Playwright default is a viewport-only capture, so no full-page
screenshot event ever occurs. -/
theorem claim2_counterexample :
    ¬ (∀ env : Env, result env = none →
        Event.screenshot screenshotPath true ∈ trace env) :=
  fun hall => absurd (hall happyNoLogin (by decide)) (by decide)

/-- Claim C2 as amended: in every successful run, the screenshot step captures
a raster image of the current viewport (the `full_page` option is left at its
default, `false`, so the capture is not of the entire scrollable page) and
writes it, exactly once, to the fixed configured file path. -/
theorem claim2_theorem :
    ∀ env : Env, result env = none →
      (trace env).filter isScreenshot = [Event.screenshot screenshotPath false] := by
  rintro ⟨a, b, c, d, e, f, g, h, i, j, k⟩
  cases a <;> cases b <;> cases c <;> cases d <;> cases e <;> cases f <;> cases g <;>
    cases h <;> cases i <;> cases j <;> cases k <;> decide

/-- Witness for the amended claim C2 at the all-successful no-login run. -/
theorem claim2_witness :
    (trace happyNoLogin).filter isScreenshot = [Event.screenshot screenshotPath false] :=
  claim2_theorem happyNoLogin (by decide)

/-- Claim C3: when a required marker wait times out — the dashboard-loaded
marker, or the authentication-confirmed marker in the login branch — the run
fails with a timeout error for that marker, that wait is attempted exactly
once (no retry), and no screenshot call is made. -/
theorem claim3_theorem :
    ∀ env : Env,
      (env.launchOk = true → env.newPageOk = true → env.gotoOk = true →
        env.dashboardMarkerAppears = false →
        result env = some (RunError.timeoutFailure dashboardMarkerSelector) ∧
        (trace env).count (Event.waitForSelector dashboardMarkerSelector markerTimeoutMs) = 1 ∧
        (trace env).countP isScreenshot = 0) ∧
      (env.launchOk = true → env.newPageOk = true → env.gotoOk = true →
        env.dashboardMarkerAppears = true → env.loginBtnPresent = true →
        env.fillAdminIdOk = true → env.fillPasswordOk = true → env.clickOk = true →
        env.totalRequestsAppears = false →
        result env = some (RunError.timeoutFailure totalRequestsSelector) ∧
        (trace env).count (Event.waitForSelector totalRequestsSelector markerTimeoutMs) = 1 ∧
        (trace env).countP isScreenshot = 0) := by
  rintro ⟨a, b, c, d, e, f, g, h, i, j, k⟩
  constructor
  · rintro rfl rfl rfl rfl
    cases e <;> cases f <;> cases g <;> cases h <;> cases i <;> cases j <;> cases k <;> decide
  · rintro rfl rfl rfl rfl rfl rfl rfl rfl rfl
    cases j <;> cases k <;> decide

/-- Witness for claim C3 at a dashboard-marker timeout run and at an
authentication-marker timeout run. -/
theorem claim3_witness :
    (result dashTimeoutEnv = some (RunError.timeoutFailure dashboardMarkerSelector) ∧
      (trace dashTimeoutEnv).count
        (Event.waitForSelector dashboardMarkerSelector markerTimeoutMs) = 1 ∧
      (trace dashTimeoutEnv).countP isScreenshot = 0) ∧
    (result loginTimeoutEnv = some (RunError.timeoutFailure totalRequestsSelector) ∧
      (trace loginTimeoutEnv).count
        (Event.waitForSelector totalRequestsSelector markerTimeoutMs) = 1 ∧
      (trace loginTimeoutEnv).countP isScreenshot = 0) :=
  ⟨(claim3_theorem dashTimeoutEnv).1 rfl rfl rfl rfl,
   (claim3_theorem loginTimeoutEnv).2 rfl rfl rfl rfl rfl rfl rfl rfl rfl⟩

end TakeScreenshot

namespace TakeScreenshot

/-- Claim C4: when the login-trigger button is present (and the preceding
steps succeed), the run fills the identifier field located by placeholder
"Admin ID" with "admin1", fills the secret field located by placeholder
"Password" with "password123", clicks the login button, and then waits for
the "Total Requests" marker with a 10,000 ms timeout — contiguously and in
exactly that order, right after the probe; if the marker does not appear,
the run fails with the corresponding timeout error. -/
theorem claim4_theorem :
    ∀ env : Env, env.launchOk = true → env.newPageOk = true → env.gotoOk = true →
      env.dashboardMarkerAppears = true → env.loginBtnPresent = true →
      env.fillAdminIdOk = true → env.fillPasswordOk = true → env.clickOk = true →
      (trace env).take 9 =
        [Event.launch, Event.newPage, Event.goto targetUrl,
         Event.waitForSelector dashboardMarkerSelector markerTimeoutMs,
         Event.querySelector loginBtnSelector,
         Event.fill adminIdSelector adminIdValue,
         Event.fill passwordSelector passwordValue,
         Event.click,
         Event.waitForSelector totalRequestsSelector markerTimeoutMs] ∧
      (env.totalRequestsAppears = false →
        result env = some (RunError.timeoutFailure totalRequestsSelector)) := by
  rintro ⟨a, b, c, d, e, f, g, h, i, j, k⟩ rfl rfl rfl rfl rfl rfl rfl rfl
  cases i <;> cases j <;> cases k <;> decide

/-- Witness for claim C4 at the login run whose authentication marker times
out. -/
theorem claim4_witness :
    (trace loginTimeoutEnv).take 9 =
      [Event.launch, Event.newPage, Event.goto targetUrl,
       Event.waitForSelector dashboardMarkerSelector markerTimeoutMs,
       Event.querySelector loginBtnSelector,
       Event.fill adminIdSelector adminIdValue,
       Event.fill passwordSelector passwordValue,
       Event.click,
       Event.waitForSelector totalRequestsSelector markerTimeoutMs] ∧
    result loginTimeoutEnv = some (RunError.timeoutFailure totalRequestsSelector) :=
  ⟨(claim4_theorem loginTimeoutEnv rfl rfl rfl rfl rfl rfl rfl rfl).1,
   (claim4_theorem loginTimeoutEnv rfl rfl rfl rfl rfl rfl rfl rfl).2 rfl⟩

/-- Claim C5: a run in which the browser works, the dashboard-loaded marker
appears within its wait, no login control is present, and the capture and
close calls succeed, completes without error and makes the screenshot call
with the configured path. -/
theorem claim5_theorem :
    ∀ env : Env, env.launchOk = true → env.newPageOk = true → env.gotoOk = true →
      env.dashboardMarkerAppears = true → env.loginBtnPresent = false →
      env.screenshotOk = true → env.closeOk = true →
      result env = none ∧ Event.screenshot screenshotPath false ∈ trace env := by
  rintro ⟨a, b, c, d, e, f, g, h, i, j, k⟩ rfl rfl rfl rfl rfl rfl rfl
  cases f <;> cases g <;> cases h <;> cases i <;> decide

/-- Witness for claim C5 at the all-successful no-login run. -/
theorem claim5_witness :
    result happyNoLogin = none ∧ Event.screenshot screenshotPath false ∈ trace happyNoLogin :=
  claim5_theorem happyNoLogin rfl rfl rfl rfl rfl rfl rfl

/-- Claim C6: when no login-trigger button is present, the probe is a single
non-blocking attempt — the query call occurs exactly once, no fill happens,
no click happens, no authentication wait happens, and the run proceeds from
the probe directly to the fixed delay and the screenshot call. -/
theorem claim6_theorem :
    ∀ env : Env, env.launchOk = true → env.newPageOk = true → env.gotoOk = true →
      env.dashboardMarkerAppears = true → env.loginBtnPresent = false →
      (trace env).count (Event.querySelector loginBtnSelector) = 1 ∧
      (trace env).countP isFill = 0 ∧
      Event.click ∉ trace env ∧
      Event.waitForSelector totalRequestsSelector markerTimeoutMs ∉ trace env ∧
      (trace env).take 7 =
        [Event.launch, Event.newPage, Event.goto targetUrl,
         Event.waitForSelector dashboardMarkerSelector markerTimeoutMs,
         Event.querySelector loginBtnSelector,
         Event.waitForTimeout blindDelayMs,
         Event.screenshot screenshotPath false] := by
  rintro ⟨a, b, c, d, e, f, g, h, i, j, k⟩ rfl rfl rfl rfl rfl
  cases f <;> cases g <;> cases h <;> cases i <;> cases j <;> cases k <;> decide

/-- Witness for claim C6 at the all-successful no-login run. -/
theorem claim6_witness :
    (trace happyNoLogin).count (Event.querySelector loginBtnSelector) = 1 ∧
    (trace happyNoLogin).countP isFill = 0 ∧
    Event.click ∉ trace happyNoLogin ∧
    Event.waitForSelector totalRequestsSelector markerTimeoutMs ∉ trace happyNoLogin ∧
    (trace happyNoLogin).take 7 =
      [Event.launch, Event.newPage, Event.goto targetUrl,
       Event.waitForSelector dashboardMarkerSelector markerTimeoutMs,
       Event.querySelector loginBtnSelector,
       Event.waitForTimeout blindDelayMs,
       Event.screenshot screenshotPath false] :=
  claim6_theorem happyNoLogin rfl rfl rfl rfl rfl

/-- Claim C7: in every run that makes the screenshot call, the fixed
2,000 ms pause immediately precedes it, in both branches; the pause happens
exactly when the capture step is reached (it has no success or failure flag
of its own in the model, since `wait_for_timeout` cannot fail), and it is
never executed twice. -/
theorem claim7_theorem :
    ∀ env : Env,
      (Event.screenshot screenshotPath false ∈ trace env →
        (Event.waitForTimeout blindDelayMs, Event.screenshot screenshotPath false) ∈
          List.zip (trace env) (trace env).tail) ∧
      (Event.waitForTimeout blindDelayMs ∈ trace env ↔
        Event.screenshot screenshotPath false ∈ trace env) ∧
      (trace env).count (Event.waitForTimeout blindDelayMs) ≤ 1 := by
  rintro ⟨a, b, c, d, e, f, g, h, i, j, k⟩
  cases a <;> cases b <;> cases c <;> cases d <;> cases e <;> cases f <;> cases g <;>
    cases h <;> cases i <;> cases j <;> cases k <;> decide

/-- Witness for claim C7 at the all-successful login run. -/
theorem claim7_witness :
    (Event.waitForTimeout blindDelayMs, Event.screenshot screenshotPath false) ∈
      List.zip (trace happyLogin) (trace happyLogin).tail ∧
    Event.screenshot screenshotPath false ∈ trace happyLogin ∧
    (trace happyLogin).count (Event.waitForTimeout blindDelayMs) ≤ 1 :=
  ⟨(claim7_theorem happyLogin).1 (by decide),
   (claim7_theorem happyLogin).2.1.mp (by decide),
   (claim7_theorem happyLogin).2.2⟩

end TakeScreenshot

namespace TakeScreenshot

/-- Claim C8: no failure is caught or retried inside the procedure — whenever
the run raises, the process exits with a non-zero status, no call in the trace
is ever repeated, the last thing that happens is the scoped context exit, and
no call follows the failing one other than that context exit (the only
recovery is releasing the session). -/
theorem claim8_theorem :
    ∀ env : Env, (result env).isSome = true →
      exitCode env = 1 ∧
      (trace env).getLast? = some Event.stopPlaywright ∧
      (trace env).Nodup ∧
      failureEndsRun env = true := by
  rintro ⟨a, b, c, d, e, f, g, h, i, j, k⟩
  cases a <;> cases b <;> cases c <;> cases d <;> cases e <;> cases f <;> cases g <;>
    cases h <;> cases i <;> cases j <;> cases k <;> decide

/-- Witness for claim C8 at the run whose navigation fails. -/
theorem claim8_witness :
    exitCode navFailEnv = 1 ∧
    (trace navFailEnv).getLast? = some Event.stopPlaywright ∧
    (trace navFailEnv).Nodup ∧
    failureEndsRun navFailEnv = true :=
  claim8_theorem navFailEnv rfl

/-- Claim C9: when the login button is present but one of the blocking fills
fails (the identifier input, or the password input once the identifier fill
succeeded), the run raises a fill error before any click and before any
screenshot call, and that error lies outside the spec's four-category
taxonomy (LaunchFailure, NavigationFailure, the two marker TimeoutFailures,
CaptureFailure). -/
theorem claim9_theorem :
    ∀ env : Env,
      (env.launchOk = true → env.newPageOk = true → env.gotoOk = true →
        env.dashboardMarkerAppears = true → env.loginBtnPresent = true →
        env.fillAdminIdOk = false →
        result env = some (RunError.fillFailure adminIdSelector) ∧
        Event.click ∉ trace env ∧
        (trace env).countP isScreenshot = 0 ∧
        inSpecTaxonomy (RunError.fillFailure adminIdSelector) = false) ∧
      (env.launchOk = true → env.newPageOk = true → env.gotoOk = true →
        env.dashboardMarkerAppears = true → env.loginBtnPresent = true →
        env.fillAdminIdOk = true → env.fillPasswordOk = false →
        result env = some (RunError.fillFailure passwordSelector) ∧
        Event.click ∉ trace env ∧
        (trace env).countP isScreenshot = 0 ∧
        inSpecTaxonomy (RunError.fillFailure passwordSelector) = false) := by
  rintro ⟨a, b, c, d, e, f, g, h, i, j, k⟩
  constructor
  · rintro rfl rfl rfl rfl rfl rfl
    cases g <;> cases h <;> cases i <;> cases j <;> cases k <;> decide
  · rintro rfl rfl rfl rfl rfl rfl rfl
    cases h <;> cases i <;> cases j <;> cases k <;> decide

/-- Witness for claim C9 at a run whose identifier fill fails and a run whose
password fill fails. -/
theorem claim9_witness :
    (result fillFailEnv = some (RunError.fillFailure adminIdSelector) ∧
      Event.click ∉ trace fillFailEnv ∧
      (trace fillFailEnv).countP isScreenshot = 0 ∧
      inSpecTaxonomy (RunError.fillFailure adminIdSelector) = false) ∧
    (result fillPwFailEnv = some (RunError.fillFailure passwordSelector) ∧
      Event.click ∉ trace fillPwFailEnv ∧
      (trace fillPwFailEnv).countP isScreenshot = 0 ∧
      inSpecTaxonomy (RunError.fillFailure passwordSelector) = false) :=
  ⟨(claim9_theorem fillFailEnv).1 rfl rfl rfl rfl rfl rfl,
   (claim9_theorem fillPwFailEnv).2 rfl rfl rfl rfl rfl rfl rfl⟩

/-- Claim C10: in every successful run the script makes exactly one screenshot
call, and its path is the literal Windows-user-specific constant below — the
same constant for every environment, derived from no input. -/
theorem claim10_theorem :
    ∀ env : Env, result env = none →
      (trace env).filter isScreenshot =
        [Event.screenshot
          "C:\\Users\\Sazid\\.gemini\\antigravity\\brain\\41001d6e-5fca-4311-9d29-e0a7cb00349e\\manual_screenshot.png"
          false] := by
  rintro ⟨a, b, c, d, e, f, g, h, i, j, k⟩
  cases a <;> cases b <;> cases c <;> cases d <;> cases e <;> cases f <;> cases g <;>
    cases h <;> cases i <;> cases j <;> cases k <;> decide

/-- Witness for claim C10 at the all-successful login run. -/
theorem claim10_witness :
    (trace happyLogin).filter isScreenshot =
      [Event.screenshot
        "C:\\Users\\Sazid\\.gemini\\antigravity\\brain\\41001d6e-5fca-4311-9d29-e0a7cb00349e\\manual_screenshot.png"
        false] :=
  claim10_theorem happyLogin (by decide)

end TakeScreenshot
